import Mathlib

/-
  Verification of the fluid-simulation core of src/src/FluidBackground.js
  (repository nvhiii/berry).

  The embedding models the simulation state shallowly:
  * every DataTexture/WebGLRenderTarget pair made by createFBO is one
    allocation, identified by a numeric id in an allocation store;
  * a GPU render is recorded as a Pass (target id plus the uniform values in
    force when the render is issued) and the contents of the target buffer are
    tagged with that pass, so byte identity of buffer contents is the equality
    of tags;
  * the shared mutable config object is passed explicitly to each operation,
    which mirrors the way the dat.gui panel mutates it between calls;
  * JavaScript runtime failures (setting a property of undefined, calling a
    missing method) are returned as explicit JSError values.
-/

/-- JS runtime errors the embedded operations can raise. -/
inductive JSError where
  | cannotSetPropertyOfUndefined
  | notAFunction
deriving DecidableEq

/-- Names of material uniform slots that appear anywhere in the program text
(lines 116-128 declare the material; line 283 additionally mentions
splatForce). -/
inductive UName where
  | dyeTexture
  | velocityTexture
  | time
  | size
  | deltaT
  | dissipation
  | velocityDissipation
  | pressureUniform
  | curlStrength
  | splatRadius
  | splatForce
deriving DecidableEq, BEq

/-- The uniform slots actually created on the fluid ShaderMaterial, straight
from the object literal at lines 117-128. There is no splatForce entry. -/
def materialUniformNames : List UName :=
  [UName.dyeTexture, UName.velocityTexture, UName.time, UName.size,
   UName.deltaT, UName.dissipation, UName.velocityDissipation,
   UName.pressureUniform, UName.curlStrength, UName.splatRadius]

/-- Texture references that the fragment shader (lines 136-205) passes to
texture2D, either declared samplers or other in-scope names. -/
inductive ShaderTexRef where
  | dyeTexture
  | velocityTexture
  | pressureRead
  | curl
deriving DecidableEq, BEq

/-- Sampler2D uniforms declared in the fragment shader (lines 138-139):
only dyeTexture and velocityTexture. The names pressure and curlStrength are
declared as floats; no sampler named curl exists. -/
def declaredSamplers : List ShaderTexRef :=
  [ShaderTexRef.dyeTexture, ShaderTexRef.velocityTexture]

/-- The arguments of every texture2D application in the fragment shader body:
lines 168 (dyeTexture), 169 (velocityTexture), 158-161 via bilerp whose sam
argument is dyeTexture (line 173), lines 185-186 (pressure.read, four times),
lines 191-194 (curl, four times). -/
def fragmentTexture2DRefs : List ShaderTexRef :=
  [ShaderTexRef.dyeTexture, ShaderTexRef.velocityTexture,
   ShaderTexRef.dyeTexture,
   ShaderTexRef.pressureRead, ShaderTexRef.pressureRead,
   ShaderTexRef.pressureRead, ShaderTexRef.pressureRead,
   ShaderTexRef.curl, ShaderTexRef.curl, ShaderTexRef.curl, ShaderTexRef.curl]

/-- Methods defined on class Fluid (lines 43-298): constructor plus init,
createTextures, createMaterial, createRenderTarget, createGeometry, initGUI,
update and splat. The dispose constructor below names the method that the
useEffect cleanup (line 513) tries to call. -/
inductive FluidMethod where
  | ctor
  | init
  | createTextures
  | createMaterial
  | createRenderTarget
  | createGeometry
  | initGUI
  | update
  | splat
  | dispose
deriving DecidableEq, BEq

/-- The method table of class Fluid, read off the class body at
lines 43-298. No dispose method is defined. -/
def fluidClassMethods : List FluidMethod :=
  [FluidMethod.ctor, FluidMethod.init, FluidMethod.createTextures,
   FluidMethod.createMaterial, FluidMethod.createRenderTarget,
   FluidMethod.createGeometry, FluidMethod.initGUI, FluidMethod.update,
   FluidMethod.splat]

/-- Invoking a method on a Fluid instance: calling a name that is not on the
class raises a TypeError (the JS call of an undefined property). -/
def callFluidMethod (m : FluidMethod) : Option JSError :=
  if fluidClassMethods.contains m then none else some JSError.notAFunction

/-- The useEffect cleanup (lines 505-514) ends with
fluidSimRef.current.dispose() at line 513. -/
def cleanupDisposeCall : Option JSError := callFluidMethod FluidMethod.dispose

/-- The uniform record of the fluid material, with exactly the slots created
by createMaterial (lines 117-128). Texture slots hold an allocation id or
none for the initial null. -/
structure Uniforms where
  dyeTexture : Option Nat
  velocityTexture : Option Nat
  time : ℚ
  sizeX : ℚ
  sizeY : ℚ
  deltaT : ℚ
  dissipation : ℚ
  velocityDissipation : ℚ
  pressure : ℚ
  curlStrength : ℚ
  splatRadius : ℚ
deriving DecidableEq

/-- Provenance tag for the bytes held by a buffer: zero-initialized of a given
float count (line 302, new Float32Array(4*w*h)), or the result of a render
pass issued with a given uniform snapshot over the previous contents. Tag
equality entails byte-for-byte identical contents. -/
inductive Contents where
  | zeros (n : Nat)
  | rendered (u : Uniforms) (prev : Contents)
deriving DecidableEq

/-- One allocated texture/render-target pair: its dimensions and current
contents tag. -/
structure FBOInfo where
  w : Nat
  h : Nat
  contents : Contents
deriving DecidableEq

/-- The allocation store: every GPU buffer ever allocated, by id. Entries are
never removed because the source never disposes any of them. -/
abbrev Store := List (Nat × FBOInfo)

/-- createFBO (lines 300-330) allocates one texture plus render target of the
given size, zero filled (4 floats per texel, line 302). -/
def createFBO (fboId w h : Nat) : Nat × FBOInfo :=
  (fboId, ⟨w, h, Contents.zeros (4 * w * h)⟩)

/-- Recording a render into target tid: its contents become the output of the
pass with uniform snapshot u over the previous contents. -/
def writeTo (st : Store) (tid : Nat) (u : Uniforms) : Store :=
  List.map (fun e => if e.1 = tid then (e.1, ⟨e.2.w, e.2.h, Contents.rendered u e.2.contents⟩) else e) st

/-- The object returned by createDoubleFBO (lines 332-345). The read and
write properties are fixed at object creation from the locals fbo1 and fbo2;
the closure of swap captures the two mutable locals, so they are part of the
state as well. -/
structure DoubleFBO where
  read : Nat
  write : Nat
  fbo1 : Nat
  fbo2 : Nat
deriving DecidableEq

/-- createDoubleFBO (lines 332-345), given the ids of the two freshly created
FBOs: the returned object has read = fbo1, write = fbo2. -/
def createDoubleFBO (a b : Nat) : DoubleFBO :=
  { read := a, write := b, fbo1 := a, fbo2 := b }

/-- swap (lines 339-343) exchanges the closure locals fbo1 and fbo2. The read
and write properties of the returned object are plain values fixed at
creation and are not touched by this assignment. -/
def DoubleFBO.swap (d : DoubleFBO) : DoubleFBO :=
  { d with fbo1 := d.fbo2, fbo2 := d.fbo1 }

/-- The shared mutable config object (lines 22-41), including every field the
dat.gui panel (lines 234-246) can mutate. -/
structure Config where
  SIM_RESOLUTION : Nat
  DYE_RESOLUTION : Nat
  DENSITY_DISSIPATION : ℚ
  VELOCITY_DISSIPATION : ℚ
  PRESSURE : ℚ
  PRESSURE_ITERATIONS : Nat
  CURL : ℚ
  SPLAT_RADIUS : ℚ
  SPLAT_FORCE : ℚ
  SHADING : Bool
  COLORFUL : Bool
  PAUSED : Bool
  BACK_COLOR : ℚ × ℚ × ℚ
  TRANSPARENT : Bool
  BLOOM : Bool
  BLOOM_THRESHOLD : ℚ
  BLOOM_STRENGTH : ℚ
  BLOOM_RADIUS : ℚ
deriving DecidableEq

/-- The initial config literal (lines 22-41). -/
def defaultConfig : Config :=
  { SIM_RESOLUTION := 128
    DYE_RESOLUTION := 512
    DENSITY_DISSIPATION := 97 / 100
    VELOCITY_DISSIPATION := 99 / 100
    PRESSURE := 8 / 10
    PRESSURE_ITERATIONS := 20
    CURL := 30
    SPLAT_RADIUS := 25 / 100
    SPLAT_FORCE := 6000
    SHADING := true
    COLORFUL := true
    PAUSED := false
    BACK_COLOR := (0, 0, 0)
    TRANSPARENT := false
    BLOOM := true
    BLOOM_THRESHOLD := 3 / 10
    BLOOM_STRENGTH := 3 / 2
    BLOOM_RADIUS := 0 }

/-- One GPU render: the id of the target bound by setRenderTarget and the
uniform values in force when renderer.render is issued. -/
structure Pass where
  target : Nat
  uniformsSnap : Uniforms
deriving DecidableEq

/-- The state of a Fluid instance: canvas size (this.size), the five
simulation fields of createTextures (lines 63-108), the material uniforms
(createMaterial), the extra full-screen render target of createRenderTarget
(lines 209-227), the allocation store, and the next fresh allocation id. -/
structure Fluid where
  sizeX : Nat
  sizeY : Nat
  dye : DoubleFBO
  velocity : DoubleFBO
  divergence : Nat
  curl : Nat
  pressure : DoubleFBO
  uniforms : Uniforms
  renderTarget : Nat
  store : Store
  nextId : Nat
deriving DecidableEq

/-- The uniforms object created by createMaterial (lines 117-128): texture
slots start null, time and deltaT start 0, size snapshots this.size, and the
scalar parameters copy the config values in force at creation time. -/
def createMaterialUniforms (w h : Nat) (cfg : Config) : Uniforms :=
  { dyeTexture := none
    velocityTexture := none
    time := 0
    sizeX := (w : ℚ)
    sizeY := (h : ℚ)
    deltaT := 0
    dissipation := cfg.DENSITY_DISSIPATION
    velocityDissipation := cfg.VELOCITY_DISSIPATION
    pressure := cfg.PRESSURE
    curlStrength := cfg.CURL
    splatRadius := cfg.SPLAT_RADIUS }

/-- Constructing a Fluid (constructor plus init, lines 44-61): createTextures
allocates dye (two FBOs at DYE_RESOLUTION), velocity (two at SIM_RESOLUTION),
divergence, curl (one each) and pressure (two), in source order; then
createMaterial builds the uniforms and createRenderTarget allocates the
full-screen target at this.size. -/
def Fluid.init (w h : Nat) (cfg : Config) : Fluid :=
  { sizeX := w
    sizeY := h
    dye := createDoubleFBO 0 1
    velocity := createDoubleFBO 2 3
    divergence := 4
    curl := 5
    pressure := createDoubleFBO 6 7
    uniforms := createMaterialUniforms w h cfg
    renderTarget := 8
    store :=
      [createFBO 0 cfg.DYE_RESOLUTION cfg.DYE_RESOLUTION,
       createFBO 1 cfg.DYE_RESOLUTION cfg.DYE_RESOLUTION,
       createFBO 2 cfg.SIM_RESOLUTION cfg.SIM_RESOLUTION,
       createFBO 3 cfg.SIM_RESOLUTION cfg.SIM_RESOLUTION,
       createFBO 4 cfg.SIM_RESOLUTION cfg.SIM_RESOLUTION,
       createFBO 5 cfg.SIM_RESOLUTION cfg.SIM_RESOLUTION,
       createFBO 6 cfg.SIM_RESOLUTION cfg.SIM_RESOLUTION,
       createFBO 7 cfg.SIM_RESOLUTION cfg.SIM_RESOLUTION,
       createFBO 8 w h]
    nextId := 9 }

/-- createRenderTarget (lines 209-227): allocates a new WebGLRenderTarget at
this.size and overwrites this.renderTarget with it. The previous target is
never disposed, so its store entry remains. -/
def Fluid.createRenderTarget (s : Fluid) : Fluid :=
  { s with
      renderTarget := s.nextId
      nextId := s.nextId + 1
      store := (s.nextId, ⟨s.sizeX, s.sizeY, Contents.zeros (4 * s.sizeX * s.sizeY)⟩) :: s.store }

/-- onWindowResize (lines 518-534), restricted to its effect on the fluid
simulation (lines 529-531): it sets size.x and size.y and calls
createRenderTarget. It touches none of the field buffers and disposes
nothing. -/
def onWindowResize (w h : Nat) (s : Fluid) : Fluid :=
  Fluid.createRenderTarget { s with sizeX := w, sizeY := h }

/-- update (lines 248-273). When PAUSED, nothing at all happens. Otherwise
time is increased by dt and deltaT set to dt on the material uniforms, and
five renders of the single fused material are issued, targeting dye.write,
velocity.write, divergence, curl and pressure.write in that order, with
dye.swap, velocity.swap and pressure.swap called after their renders. The
swaps only exchange the closure locals (see DoubleFBO.swap), so the write
properties used as targets are the ones fixed at construction. -/
def Fluid.update (cfg : Config) (dt : ℚ) (s : Fluid) : Fluid × List Pass :=
  if cfg.PAUSED then (s, [])
  else
    let u : Uniforms := { s.uniforms with time := s.uniforms.time + dt, deltaT := dt }
    ({ s with
        uniforms := u
        dye := s.dye.swap
        velocity := s.velocity.swap
        pressure := s.pressure.swap
        store :=
          writeTo (writeTo (writeTo (writeTo (writeTo s.store s.dye.write u)
            s.velocity.write u) s.divergence u) s.curl u) s.pressure.write u },
     [⟨s.dye.write, u⟩, ⟨s.velocity.write, u⟩, ⟨s.divergence, u⟩,
      ⟨s.curl, u⟩, ⟨s.pressure.write, u⟩])

/-- splat (lines 275-297). Lines 279-282 set the dyeTexture, velocityTexture
and splatRadius uniforms; line 283 then assigns to
uniforms.splatForce.value. The material uniforms (materialUniformNames)
contain no splatForce slot, so in JS that property access yields undefined
and the assignment throws a TypeError before any render is issued; the
renders and swaps of lines 285-294 are reached only if such a slot existed.
The x, y, dx, dy and color parameters are never read by the method body. -/
def Fluid.splat (cfg : Config) (x y dx dy : ℚ) (color : ℚ × ℚ × ℚ) (s : Fluid) :
    Fluid × List Pass × Option JSError :=
  let u1 : Uniforms :=
    { s.uniforms with
        dyeTexture := some s.dye.read
        velocityTexture := some s.velocity.read
        splatRadius := cfg.SPLAT_RADIUS / 100 }
  if materialUniformNames.contains UName.splatForce then
    let s1 : Fluid :=
      { s with uniforms := u1, dye := s.dye.swap, store := writeTo s.store s.dye.write u1 }
    let s2 : Fluid :=
      { s1 with velocity := s.velocity.swap, store := writeTo s1.store s.velocity.write u1 }
    (s2, [⟨s.dye.write, u1⟩, ⟨s.velocity.write, u1⟩], none)
  else
    ({ s with uniforms := u1 }, [], some JSError.cannotSetPropertyOfUndefined)

/-- Iterating update: the animation loop (lines 553-573) calls
fluidSimRef.current.update(dt) once per frame, with no splats in between. -/
def stepN (cfg : Config) (dt : ℚ) : Nat → Fluid → Fluid
  | 0, s => s
  | n + 1, s => stepN cfg dt n (Fluid.update cfg dt s).1

/-- A concrete instance: a Fluid constructed over an 800 by 600 canvas with
the initial config. -/
def fluid0 : Fluid := Fluid.init 800 600 defaultConfig

/-- Helper: update never changes which textures the dyeTexture and
velocityTexture uniforms point at, and never changes the read property of the
dye and velocity double buffers. -/
theorem updatePreservesBindings (cfg : Config) (dt : ℚ) (s : Fluid) :
    (Fluid.update cfg dt s).1.uniforms.dyeTexture = s.uniforms.dyeTexture
  ∧ (Fluid.update cfg dt s).1.uniforms.velocityTexture = s.uniforms.velocityTexture
  ∧ (Fluid.update cfg dt s).1.dye.read = s.dye.read
  ∧ (Fluid.update cfg dt s).1.velocity.read = s.velocity.read := by
  cases hP : cfg.PAUSED <;>
    simp [Fluid.update, hP, DoubleFBO.swap]

/-- Helper: the properties of updatePreservesBindings are preserved by any
number of update steps. -/
theorem stepNPreservesBindings (cfg : Config) (dt : ℚ) :
    ∀ (n : Nat) (s : Fluid),
      (stepN cfg dt n s).uniforms.dyeTexture = s.uniforms.dyeTexture
    ∧ (stepN cfg dt n s).uniforms.velocityTexture = s.uniforms.velocityTexture
    ∧ (stepN cfg dt n s).dye.read = s.dye.read
    ∧ (stepN cfg dt n s).velocity.read = s.velocity.read
  | 0, s => ⟨rfl, rfl, rfl, rfl⟩
  | n + 1, s => by
    have ih := stepNPreservesBindings cfg dt n (Fluid.update cfg dt s).1
    have hu := updatePreservesBindings cfg dt s
    exact ⟨ih.1.trans hu.1, ih.2.1.trans hu.2.1,
           ih.2.2.1.trans hu.2.2.1, ih.2.2.2.trans hu.2.2.2⟩

/-- Claim C1 (code bug evaluation): on a concrete double buffer, swap leaves
the read and write properties exactly as they were (the closure locals fbo1
and fbo2 are exchanged instead), so the buffer previously reachable through
write is not reachable through read after swap. -/
theorem c1_swap_keeps_read_write :
    (createDoubleFBO 0 1).swap.read = (createDoubleFBO 0 1).read
  ∧ (createDoubleFBO 0 1).swap.write = (createDoubleFBO 0 1).write
  ∧ (createDoubleFBO 0 1).swap.fbo1 = (createDoubleFBO 0 1).fbo2
  ∧ (createDoubleFBO 0 1).swap.fbo2 = (createDoubleFBO 0 1).fbo1
  ∧ ¬ (createDoubleFBO 0 1).swap.read = (createDoubleFBO 0 1).write := by
  refine ⟨rfl, rfl, rfl, rfl, ?_⟩
  decide

/-- Claim C2: an update call made while the pause flag is set issues no
passes and returns the state unchanged, so every buffer of every field keeps
byte-for-byte the same contents. -/
theorem c2_paused_update_identity (cfg : Config) (dt : ℚ) (s : Fluid)
    (h : cfg.PAUSED = true) :
    Fluid.update cfg dt s = (s, []) := by
  simp [Fluid.update, h]

/-- Witness for c2_paused_update_identity at a concrete paused config, time
delta and state. -/
theorem c2_paused_update_identity_witness :
    Fluid.update { defaultConfig with PAUSED := true } (16 / 1000) fluid0
      = (fluid0, []) :=
  c2_paused_update_identity { defaultConfig with PAUSED := true } (16 / 1000) fluid0 rfl

/-- Claim C10: the result of splat is the same whatever position, impulse and
color arguments it receives, because the method body never reads them. -/
theorem c10_splat_ignores_arguments (cfg : Config) (s : Fluid)
    (x1 y1 dx1 dy1 : ℚ) (c1 : ℚ × ℚ × ℚ) (x2 y2 dx2 dy2 : ℚ) (c2 : ℚ × ℚ × ℚ) :
    Fluid.splat cfg x1 y1 dx1 dy1 c1 s = Fluid.splat cfg x2 y2 dx2 dy2 c2 s := rfl

/-- Claim C5 (code bug evaluation): a concrete splat call on a freshly
constructed Fluid raises the TypeError from assigning to
uniforms.splatForce.value (the material has no splatForce uniform) and issues
no render pass, so nothing is written and no double buffer is swapped. -/
theorem c5_splat_throws :
    (Fluid.splat defaultConfig (1 / 2) (1 / 2) 10 0 (1, 1, 1) fluid0).2.2
      = some JSError.cannotSetPropertyOfUndefined
  ∧ (Fluid.splat defaultConfig (1 / 2) (1 / 2) 10 0 (1, 1, 1) fluid0).2.1 = []
  ∧ materialUniformNames.contains UName.splatForce = false := by
  refine ⟨?_, ?_, rfl⟩ <;> rfl

/-- Claim C7 (code bug evaluation): class Fluid defines no dispose method, so
the dispose call made by the useEffect cleanup raises a TypeError instead of
releasing anything or arming a use-after-dispose guard. -/
theorem c7_dispose_missing :
    cleanupDisposeCall = some JSError.notAFunction
  ∧ fluidClassMethods.contains FluidMethod.dispose = false := ⟨rfl, rfl⟩

/-- Claim C3 counterexample: the claimed order puts the pressure solve before
the pressure-gradient subtraction, and gradient subtraction is applied to
velocity, so the render writing pressure would have to precede the render
writing velocity; in the concrete unpaused update the velocity-target render
is pass 1 while the pressure-target render is pass 4, so the claimed ordering
is false. -/
theorem c3_counterexample :
    ¬ (∀ i j : Nat,
        (Fluid.update defaultConfig (16 / 1000) fluid0).2.findIdx?
            (fun p => p.target == fluid0.pressure.write) = some i →
        (Fluid.update defaultConfig (16 / 1000) fluid0).2.findIdx?
            (fun p => p.target == fluid0.velocity.write) = some j →
        i < j) := by
  intro h
  exact absurd (h 4 1 (by decide) (by decide)) (by decide)

/-- Claim C3 amended: an unpaused update issues exactly five renders, all of
the one fused material with one shared uniform snapshot, targeting dye.write,
velocity.write, divergence, curl and pressure.write in that order, and swaps
the dye, velocity and pressure closures; there is no separate
advection/dissipation/curl/vorticity/divergence/pressure/gradient pass
sequence, and the fused pass consuming pressure (the velocity-target render)
precedes the pressure-target render. -/
theorem c3_fused_pass_order (cfg : Config) (dt : ℚ) (s : Fluid)
    (h : cfg.PAUSED = false) :
    (Fluid.update cfg dt s).2.map Pass.target
      = [s.dye.write, s.velocity.write, s.divergence, s.curl, s.pressure.write]
  ∧ (Fluid.update cfg dt s).2.map Pass.uniformsSnap
      = List.replicate 5 { s.uniforms with time := s.uniforms.time + dt, deltaT := dt }
  ∧ (Fluid.update cfg dt s).1.dye = s.dye.swap
  ∧ (Fluid.update cfg dt s).1.velocity = s.velocity.swap
  ∧ (Fluid.update cfg dt s).1.pressure = s.pressure.swap := by
  simp [Fluid.update, h, List.replicate]

/-- Witness for c3_fused_pass_order at a concrete config, time delta and
state. -/
theorem c3_fused_pass_order_witness :
    (Fluid.update defaultConfig (16 / 1000) fluid0).2.map Pass.target
      = [fluid0.dye.write, fluid0.velocity.write, fluid0.divergence,
         fluid0.curl, fluid0.pressure.write]
  ∧ (Fluid.update defaultConfig (16 / 1000) fluid0).2.map Pass.uniformsSnap
      = List.replicate 5
          { fluid0.uniforms with time := fluid0.uniforms.time + 16 / 1000, deltaT := 16 / 1000 }
  ∧ (Fluid.update defaultConfig (16 / 1000) fluid0).1.dye = fluid0.dye.swap
  ∧ (Fluid.update defaultConfig (16 / 1000) fluid0).1.velocity = fluid0.velocity.swap
  ∧ (Fluid.update defaultConfig (16 / 1000) fluid0).1.pressure = fluid0.pressure.swap :=
  c3_fused_pass_order defaultConfig (16 / 1000) fluid0 rfl

/-- Claim C4 counterexample: with the default config (PRESSURE_ITERATIONS set
to 20) a concrete unpaused update issues exactly one render targeting the
pressure double buffer, not twenty, so no iterated Jacobi relaxation loop
exists. -/
theorem c4_counterexample :
    ¬ (((Fluid.update defaultConfig (16 / 1000) fluid0).2.filter
          (fun p => p.target == fluid0.pressure.write)).length
        = defaultConfig.PRESSURE_ITERATIONS) := by
  decide

/-- Claim C4 amended: each unpaused update issues exactly one render
targeting the pressure write buffer and calls pressure swap exactly once; the
PRESSURE_ITERATIONS config entry (20 by default) exists but is never read, so
the step is entirely independent of its value. -/
theorem c4_single_pressure_pass (w h : Nat) (cfg : Config) (dt : ℚ) (n : Nat)
    (hp : cfg.PAUSED = false) :
    ((Fluid.update cfg dt (Fluid.init w h cfg)).2.filter
        (fun p => p.target == (Fluid.init w h cfg).pressure.write)).length = 1
  ∧ (Fluid.update cfg dt (Fluid.init w h cfg)).1.pressure
      = (Fluid.init w h cfg).pressure.swap
  ∧ Fluid.update { cfg with PRESSURE_ITERATIONS := n } dt
        (Fluid.init w h { cfg with PRESSURE_ITERATIONS := n })
      = Fluid.update cfg dt (Fluid.init w h cfg) := by
  refine ⟨?_, ?_, rfl⟩ <;>
    simp [Fluid.update, hp, Fluid.init, createDoubleFBO, List.filter]

/-- Witness for c4_single_pressure_pass at a concrete grid, config, time
delta and iteration count. -/
theorem c4_single_pressure_pass_witness :
    ((Fluid.update defaultConfig (16 / 1000) (Fluid.init 800 600 defaultConfig)).2.filter
        (fun p => p.target == (Fluid.init 800 600 defaultConfig).pressure.write)).length = 1
  ∧ (Fluid.update defaultConfig (16 / 1000) (Fluid.init 800 600 defaultConfig)).1.pressure
      = (Fluid.init 800 600 defaultConfig).pressure.swap
  ∧ Fluid.update { defaultConfig with PRESSURE_ITERATIONS := 5 } (16 / 1000)
        (Fluid.init 800 600 { defaultConfig with PRESSURE_ITERATIONS := 5 })
      = Fluid.update defaultConfig (16 / 1000) (Fluid.init 800 600 defaultConfig) :=
  c4_single_pressure_pass 800 600 defaultConfig (16 / 1000) 5 rfl

/-- Claim C6 counterexample: change the dye dissipation in the config to 1/2
(as the GUI slider would) and run the next unpaused update; every issued pass
still consumes the dissipation value 97/100 that was copied into the material
uniforms at creation, not the new value, so the change is not visible to the
next pass. -/
theorem c6_counterexample :
    ¬ ((Fluid.update { defaultConfig with DENSITY_DISSIPATION := 1 / 2 }
          (16 / 1000) fluid0).2.map (fun p => p.uniformsSnap.dissipation)
        = List.replicate 5 ((1 : ℚ) / 2)) := by
  intro h
  have h0 : (Fluid.update { defaultConfig with DENSITY_DISSIPATION := 1 / 2 }
          (16 / 1000) fluid0).2.map (fun p => p.uniformsSnap.dissipation)
        = List.replicate 5 ((97 : ℚ) / 100) := rfl
  rw [h0] at h
  have h1 := congrArg (fun l => l.getD 0 0) h
  simp only [List.replicate, List.getD] at h1
  norm_num at h1

/-- Claim C6 amended: update reads the config only through the pause flag and
splat only through the splat radius; the dissipation, velocity dissipation,
pressure and curl parameters were copied into the material uniforms at
creation and are never re-read, so changes to them are never visible to any
later pass. -/
theorem c6_config_dependence :
    (∀ (cfg cfg2 : Config) (dt : ℚ) (s : Fluid), cfg.PAUSED = cfg2.PAUSED →
        Fluid.update cfg dt s = Fluid.update cfg2 dt s)
  ∧ (∀ (cfg cfg2 : Config) (x y dx dy : ℚ) (c : ℚ × ℚ × ℚ) (s : Fluid),
        cfg.SPLAT_RADIUS = cfg2.SPLAT_RADIUS →
        Fluid.splat cfg x y dx dy c s = Fluid.splat cfg2 x y dx dy c s)
  ∧ (∀ (w h : Nat) (cfg : Config),
        (Fluid.init w h cfg).uniforms.dissipation = cfg.DENSITY_DISSIPATION) := by
  refine ⟨?_, ?_, fun w h cfg => rfl⟩
  · intro cfg cfg2 dt s h
    simp [Fluid.update, h]
  · intro cfg cfg2 x y dx dy c s h
    simp [Fluid.splat, h]

/-- Witness for c6_config_dependence: each conjunct applied at concrete
configs that differ in latched parameters but agree on the freshly read
ones. -/
theorem c6_config_dependence_witness :
    Fluid.update { defaultConfig with DENSITY_DISSIPATION := 1 / 2 } (16 / 1000) fluid0
      = Fluid.update defaultConfig (16 / 1000) fluid0
  ∧ Fluid.splat { defaultConfig with CURL := 0 } 0 0 0 0 (1, 1, 1) fluid0
      = Fluid.splat defaultConfig 0 0 0 0 (1, 1, 1) fluid0
  ∧ (Fluid.init 800 600 defaultConfig).uniforms.dissipation
      = defaultConfig.DENSITY_DISSIPATION :=
  ⟨c6_config_dependence.1 _ _ _ _ rfl,
   c6_config_dependence.2.1 _ _ _ _ _ _ _ _ rfl,
   c6_config_dependence.2.2 800 600 defaultConfig⟩

/-- Claim C8 counterexample: after resize(100, 200) followed by
resize(300, 400) on a concrete instance, a buffer sized 100 by 200 (the
render target allocated by the first resize) is still allocated in the store,
so the first size has not been released. -/
theorem c8_counterexample :
    ¬ (∀ e ∈ (onWindowResize 300 400 (onWindowResize 100 200 fluid0)).store,
          ¬ (e.2.w = 100 ∧ e.2.h = 200)) := by
  decide

/-- Claim C8 amended: resize touches none of the simulation field buffers and
none of the material uniforms; it only updates the stored size and allocates
one fresh full-screen render target at the new size, prepending it to the
allocation store while every previously allocated buffer, including the
previous render target, stays allocated (nothing is ever disposed). -/
theorem c8_resize_leaks (w h : Nat) (s : Fluid) :
    (onWindowResize w h s).dye = s.dye
  ∧ (onWindowResize w h s).velocity = s.velocity
  ∧ (onWindowResize w h s).pressure = s.pressure
  ∧ (onWindowResize w h s).divergence = s.divergence
  ∧ (onWindowResize w h s).curl = s.curl
  ∧ (onWindowResize w h s).uniforms = s.uniforms
  ∧ (onWindowResize w h s).renderTarget = s.nextId
  ∧ (onWindowResize w h s).store
      = (s.nextId, ⟨w, h, Contents.zeros (4 * w * h)⟩) :: s.store :=
  ⟨rfl, rfl, rfl, rfl, rfl, rfl, rfl, rfl⟩

/-- Claim C9 (code bug evaluation): the fragment shader samples the names
curl and pressure.read, neither of which is a declared sampler uniform (the
shader cannot even compile), and across any number of unpaused update steps
from a fresh instance the dyeTexture and velocityTexture uniforms keep their
initial null value while dye.read and velocity.read keep pointing at the
construction-time buffers - so no step ever reads the dye or velocity fields,
and no dissipation factor is ever applied to them. -/
theorem c9_fields_never_bound :
    fragmentTexture2DRefs.contains ShaderTexRef.curl = true
  ∧ fragmentTexture2DRefs.contains ShaderTexRef.pressureRead = true
  ∧ declaredSamplers.contains ShaderTexRef.curl = false
  ∧ declaredSamplers.contains ShaderTexRef.pressureRead = false
  ∧ ∀ (cfg : Config) (dt : ℚ) (n w h : Nat),
        (stepN cfg dt n (Fluid.init w h cfg)).uniforms.dyeTexture = none
      ∧ (stepN cfg dt n (Fluid.init w h cfg)).uniforms.velocityTexture = none
      ∧ (stepN cfg dt n (Fluid.init w h cfg)).dye.read = (Fluid.init w h cfg).dye.read
      ∧ (stepN cfg dt n (Fluid.init w h cfg)).velocity.read
          = (Fluid.init w h cfg).velocity.read := by
  refine ⟨rfl, rfl, rfl, rfl, ?_⟩
  intro cfg dt n w h
  have hp := stepNPreservesBindings cfg dt n (Fluid.init w h cfg)
  exact ⟨hp.1, hp.2.1, hp.2.2.1, hp.2.2.2⟩
